import Mathlib

/-
Verification of the job-scraper repository: a shallow embedding in Lean 4 of
the data model (src/models.py), the deduplicator (src/csv_manager.py), the
field normalizer (src/base_scraper.py, src/indeed_scraper.py,
src/jsearch_scraper.py, src/python_org_scraper.py) and the orchestration
loops (BaseScraper.run, JSearchScraper.run, JSearchScraper.scrape_jobs),
together with proofs and refutations of the specified properties.

Modelling conventions:
- Python strings are Lean `String` (lists of characters); `str.lower`,
  `str.upper`, `str.replace` and the substring operator `in` are embedded
  over `List Char` (ASCII-faithful, which covers every string the claims
  touch).
- Python floats are modelled as `ℚ` (the parsed salary tokens are exact
  decimals, so no rounding behaviour is relevant to any claim).
- `hashlib.md5` in `JobListing.generate_hash` is modelled as the identity
  on its pre-image string: hash equality stands for equality of the
  lower-cased `title_company_location` key string.
- Wall-clock timestamps are abstracted: `ScraperStats.end_time` is
  `Option Unit` (`none` until the `finally` block sets it), and the
  time-based fallback job id takes the clock value as a parameter.
- Exceptions are modelled with `Except String`: an adapter's `fetch` /
  a page request either returns a value or an exception message.
-/

namespace JobScraper

/-! ## Canonical record model — src/models.py, class JobListing -/

/-- Embeds the `JobListing` dataclass of src/models.py (all 18 fields, in
source order).  `scraped_date` defaults to `""` (the timestamp set by
`__post_init__` is abstracted away, no claim depends on it). -/
structure JobListing where
  job_id : String
  platform : String
  title : String
  company : String
  location : String
  salary_min : Option ℚ := none
  salary_max : Option ℚ := none
  salary_currency : String := "USD"
  job_type : Option String := none
  experience_level : Option String := none
  remote_type : Option String := none
  description : Option String := none
  requirements : Option String := none
  skills : Option String := none
  apply_url : String := ""
  posted_date : Option String := none
  scraped_date : String := ""
  company_rating : Option ℚ := none
deriving DecidableEq, Repr

/-- Embeds Python `str.lower()` character-wise (ASCII-faithful; kernel
reducible, unlike `String.toLower` whose `String.mapAux` does not reduce). -/
def pyLower (s : String) : String :=
  ⟨s.data.map Char.toLower⟩

/-- Embeds Python `str.upper()` character-wise (ASCII-faithful). -/
def pyUpper (s : String) : String :=
  ⟨s.data.map Char.toUpper⟩

/-- Embeds `JobListing.generate_hash` (src/models.py lines 46-50):
`md5(f"{title.lower()}_{company.lower()}_{location.lower()}")`.  The md5
digest is modelled as the identity on the key string, so hash equality is
equality of the lower-cased title/company/location key. -/
def generate_hash (j : JobListing) : String :=
  pyLower j.title ++ "_" ++ pyLower j.company ++ "_" ++ pyLower j.location

/-! ## Deduplicator — src/csv_manager.py, CSVManager.deduplicate_jobs -/

/-- The loop body of `CSVManager.deduplicate_jobs` (src/csv_manager.py
lines 80-93): walk the list, keep a job only when its hash is not in the
`seen_hashes` set (modelled as the list of hashes added so far). -/
def dedupAux : List JobListing → List String → List JobListing
  | [], _ => []
  | j :: rest, seen =>
    if generate_hash j ∈ seen then dedupAux rest seen
    else j :: dedupAux rest (generate_hash j :: seen)

/-- Embeds `CSVManager.deduplicate_jobs` (src/csv_manager.py lines 78-93). -/
def deduplicate_jobs (jobs : List JobListing) : List JobListing :=
  dedupAux jobs []

/-- Spec-side formulation of the dedup rule (spec §4.3), for the refinement
statement of the first-seen-order claim: keep a record iff no earlier record
in the sequence has an equal dedup hash.  `earlier` is the list of records
preceding the current one. -/
def keepIfNoEarlierAux : List JobListing → List JobListing → List JobListing
  | _, [] => []
  | earlier, j :: rest =>
    if ∀ k ∈ earlier, generate_hash k ≠ generate_hash j then
      j :: keepIfNoEarlierAux (earlier ++ [j]) rest
    else
      keepIfNoEarlierAux (earlier ++ [j]) rest

/-- Spec-side dedup (spec §4.3): a record is kept iff no earlier record of
the sequence has an equal dedup hash. -/
def keepIfNoEarlier (jobs : List JobListing) : List JobListing :=
  keepIfNoEarlierAux [] jobs

/-! ## String primitives shared by the field normalizer

Python string operations used by the normalizer, embedded over `List Char`
so that every definition reduces in the kernel. -/

/-- Embeds the Python substring operator `pat in hay`: some suffix of `hay`
starts with `pat` (true for the empty pattern, as in Python). -/
def strContains (hay pat : String) : Bool :=
  hay.data.tails.any (fun t => pat.data.isPrefixOf t)

/-- Embeds Python `str.replace(pat, rep)`: replace non-overlapping
occurrences left to right.  Fuel-based structural recursion; fuel equal to
the length of the text suffices for the non-empty patterns the scraper
uses, since every step consumes at least one character. -/
def replaceAux (pat rep : List Char) : Nat → List Char → List Char
  | 0, l => l
  | _ + 1, [] => []
  | fuel + 1, c :: rest =>
    if pat.isPrefixOf (c :: rest) then
      rep ++ replaceAux pat rep fuel (List.drop pat.length (c :: rest))
    else
      c :: replaceAux pat rep fuel rest

/-- Python `text.replace(pat, rep)` on `String`. -/
def pyReplace (s pat rep : String) : String :=
  ⟨replaceAux pat.data rep.data s.data.length s.data⟩

/-! ## Salary parsing — src/base_scraper.py, BaseScraper.parse_salary -/

/-- Embeds `re.findall(r"\d+\.?\d*", text)` (src/base_scraper.py line 191):
scan left to right; at each digit take the maximal digit run, an optional
dot, and a maximal digit run after it, then continue past the match
(non-overlapping, as `findall` does).  Fuel-based; fuel equal to the text
length suffices since every step consumes at least one character. -/
def findNumbersAux : Nat → List Char → List (List Char)
  | 0, _ => []
  | _ + 1, [] => []
  | fuel + 1, c :: rest =>
    if c.isDigit then
      let intPart := (c :: rest).takeWhile Char.isDigit
      let r1 := (c :: rest).dropWhile Char.isDigit
      match r1 with
      | '.' :: r2 =>
        (intPart ++ '.' :: r2.takeWhile Char.isDigit)
          :: findNumbersAux fuel (r2.dropWhile Char.isDigit)
      | _ => intPart :: findNumbersAux fuel r1
    else
      findNumbersAux fuel rest

/-- All numeric tokens of a character list, in source-text order. -/
def findNumbers (s : List Char) : List (List Char) :=
  findNumbersAux s.length s

/-- Value of a digit run (digits in ASCII). -/
def natOfDigits (l : List Char) : ℕ :=
  l.foldl (fun acc c => 10 * acc + (c.toNat - 48)) 0

/-- Embeds Python `float(token)` for a token matching `\d+\.?\d*`, as an
exact rational (no claim depends on binary floating-point rounding). -/
def floatOfToken (l : List Char) : ℚ :=
  let intPart := l.takeWhile Char.isDigit
  match l.dropWhile Char.isDigit with
  | '.' :: fracPart =>
    (natOfDigits intPart : ℚ) + (natOfDigits fracPart : ℚ) / (10 : ℚ) ^ fracPart.length
  | _ => (natOfDigits intPart : ℚ)

/-- The stripping pipeline of `BaseScraper.parse_salary`
(src/base_scraper.py lines 187-188): lower-case, then remove `"a year"`,
`"an hour"`, `","` and `"$"`, in that order. -/
def stripSalary (salary_text : String) : String :=
  pyReplace (pyReplace (pyReplace (pyReplace (pyLower salary_text)
    "a year" "") "an hour" "") "," "") "$" ""

/-- Embeds `BaseScraper.parse_salary` (src/base_scraper.py lines 179-198):
falsy (empty) text gives `(none, none)`; otherwise strip, collect numeric
tokens, and return `(first, second)` for two-or-more tokens, `(v, v)` for
one, `(none, none)` for zero. -/
def parse_salary (salary_text : String) : Option ℚ × Option ℚ :=
  if salary_text = "" then (none, none)
  else
    match findNumbers (stripSalary salary_text).data with
    | n1 :: n2 :: _ => (some (floatOfToken n1), some (floatOfToken n2))
    | [n1] => (some (floatOfToken n1), some (floatOfToken n1))
    | [] => (none, none)

/-! ## Field classifiers — src/indeed_scraper.py, src/jsearch_scraper.py,
src/python_org_scraper.py -/

/-- Embeds the remote-type detection of `IndeedScraper.extract_job_from_card`
(src/indeed_scraper.py lines 107-112): default `"on-site"`; `"remote"` if
any of `["remote", "work from home"]` occurs in the lowered title or
snippet; else `"hybrid"` if `"hybrid"` occurs in either. -/
def indeedRemoteType (title snippet : String) : String :=
  if ["remote", "work from home"].any
      (fun w => strContains (pyLower title) w || strContains (pyLower snippet) w) then
    "remote"
  else if strContains (pyLower title) "hybrid" || strContains (pyLower snippet) "hybrid" then
    "hybrid"
  else
    "on-site"

/-- Embeds the job-type detection of `IndeedScraper.extract_job_from_card`
(src/indeed_scraper.py lines 114-120). -/
def indeedJobType (snippet : String) : String :=
  let snippet_lower := pyLower snippet
  if strContains snippet_lower "part-time" || strContains snippet_lower "part time" then
    "part-time"
  else if strContains snippet_lower "contract" || strContains snippet_lower "contractor" then
    "contract"
  else
    "full-time"

/-- Embeds the experience-level detection of
`IndeedScraper.extract_job_from_card` (src/indeed_scraper.py lines 122-127). -/
def indeedExperience (title snippet : String) : String :=
  if ["senior", "lead", "principal"].any
      (fun w => strContains (pyLower title) w || strContains (pyLower snippet) w) then
    "senior"
  else if ["junior", "entry", "associate"].any
      (fun w => strContains (pyLower title) w || strContains (pyLower snippet) w) then
    "entry"
  else
    "mid"

/-- Embeds `IndeedScraper.extract_job_from_card` (src/indeed_scraper.py
lines 75-153) as a pure function of the texts the Selenium accessors
return for the card (`data-jk` attribute, title, company, location, salary
snippet, job snippet) plus the search location and the clock value used by
the time-based job-id fallback.  Selenium itself is the excluded
collaborator; the normalization of its outputs is embedded faithfully. -/
def indeed_extract (now : ℕ)
    (card_job_id title company job_location salary_text snippet location : String) :
    JobListing :=
  let job_id := if card_job_id = "" then "indeed_" ++ toString now else card_job_id
  let sal := parse_salary salary_text
  { job_id := job_id
    platform := "indeed"
    title := title
    company := company
    location := if job_location = "" then location else job_location
    salary_min := sal.1
    salary_max := sal.2
    job_type := some (indeedJobType snippet)
    experience_level := some (indeedExperience title snippet)
    remote_type := some (indeedRemoteType title snippet)
    description := some snippet
    requirements := none
    skills := none
    apply_url := "https://www.indeed.com/viewjob?jk=" ++ job_id
    posted_date := none }

/-- Embeds `JSearchScraper.map_employment_type` (src/jsearch_scraper.py
lines 280-291): dictionary lookup with default `"full-time"`. -/
def map_employment_type (employment_type : String) : String :=
  let e := pyUpper employment_type
  if e = "FULLTIME" then "full-time"
  else if e = "PARTTIME" then "part-time"
  else if e = "CONTRACTOR" then "contract"
  else if e = "INTERN" then "internship"
  else "full-time"

/-- Embeds `JSearchScraper.detect_experience_level` (src/jsearch_scraper.py
lines 293-307). -/
def detect_experience_level (title description : String) : String :=
  let text := pyLower (title ++ " " ++ description)
  if ["senior", "sr.", "lead", "principal", "staff", "architect", "director"].any
      (fun k => strContains text k) then
    "senior"
  else if ["junior", "jr.", "entry", "associate", "graduate", "intern"].any
      (fun k => strContains text k) then
    "entry"
  else
    "mid"

/-- Embeds the remote-type normalization of `JSearchScraper.parse_job`
(src/jsearch_scraper.py lines 209-217): start from the `job_is_remote`
flag (`"remote"`/`"on-site"`), then overwrite with `"hybrid"` whenever
`"hybrid"` occurs in the lowered title or description — the hybrid check
runs after, and therefore overrides, the remote flag. -/
def jsearchRemoteType (is_remote : Bool) (title description : String) : String :=
  let remote_type := if is_remote then "remote" else "on-site"
  if strContains (pyLower title) "hybrid" || strContains (pyLower description) "hybrid" then
    "hybrid"
  else
    remote_type

/-- Embeds the remote-type detection of `PythonOrgScraper.create_job_listing`
(src/python_org_scraper.py lines 229-234): scans location plus description
(not the title). -/
def pythonOrgRemoteType (location description : String) : String :=
  let location_text := pyLower (location ++ " " ++ description)
  if ["remote", "work from home", "wfh"].any (fun w => strContains location_text w) then
    "remote"
  else if strContains location_text "hybrid" then
    "hybrid"
  else
    "on-site"

/-- Embeds the job-type mapping of `PythonOrgScraper.create_job_listing`
(src/python_org_scraper.py lines 237-246): dictionary lookup on the lowered
job-type text with default `"full-time"`. -/
def pythonOrgJobType (job_type : String) : String :=
  let t := pyLower job_type
  if t = "full-time" then "full-time"
  else if t = "part-time" then "part-time"
  else if t = "contract" then "contract"
  else if t = "freelance" then "contract"
  else "full-time"

/-! ## Session statistics — src/models.py, class ScraperStats -/

/-- Embeds the `ScraperStats` dataclass (src/models.py lines 68-82).
`start_time` is dropped and `end_time` is abstracted to `Option Unit`
(`none` until the `finally` block sets it): no claim depends on clock
values, only on whether `end_time` was assigned. -/
structure ScraperStats where
  platform : String
  jobs_found : ℕ := 0
  jobs_saved : ℕ := 0
  errors : ℕ := 0
  error_messages : List String := []
  end_time : Option Unit := none
deriving DecidableEq, Repr

/-- The stats object a scraper constructs in `__init__`. -/
def initStats (platform : String) : ScraperStats :=
  { platform := platform }

/-! ## Orchestration loops — src/base_scraper.py BaseScraper.run and
src/jsearch_scraper.py JSearchScraper.run

The nested `for keyword ... for location ...` loops run over the
cross-product of the configured keyword and location lists. -/

/-- The task list of a run: the cross-product of keywords × locations, in
loop order. -/
def crossTasks (keywords locations : List String) : List (String × String) :=
  keywords.flatMap (fun k => locations.map (fun l => (k, l)))

/-- The task loop shared by `BaseScraper.run` (src/base_scraper.py lines
146-163) and `JSearchScraper.run` (src/jsearch_scraper.py lines 73-90):
for each task call `scrape_jobs`; on success extend the job list and
`jobs_found`; on an exception increment `errors` and append
`f"{keyword}|{location}: {e}"` to `error_messages`, then continue with the
next task.  `fetch` models `scrape_jobs`, raising via `Except.error`. -/
def runTasks (fetch : String → String → Except String (List JobListing)) :
    List (String × String) → List JobListing × ScraperStats →
    List JobListing × ScraperStats
  | [], acc => acc
  | (keyword, location) :: rest, (all_jobs, stats) =>
    match fetch keyword location with
    | Except.ok jobs =>
      runTasks fetch rest
        (all_jobs ++ jobs, { stats with jobs_found := stats.jobs_found + jobs.length })
    | Except.error e =>
      runTasks fetch rest
        (all_jobs,
         { stats with
             errors := stats.errors + 1,
             error_messages :=
               stats.error_messages ++ [keyword ++ "|" ++ location ++ ": " ++ e] })

/-- Embeds `BaseScraper.run` (src/base_scraper.py lines 139-177).  `init`
models `initialize_driver`: when it raises, its own handler (lines 86-90)
appends `"WebDriver init error: ..."` and increments `errors`, the raise
then reaches `run`'s outer handler (lines 167-170) which increments
`errors` again and appends `"Fatal: ..."`; the task loop never starts and
`jobs_saved` keeps its initial 0.  The `finally` block always sets
`end_time`.  Per-task exceptions are all caught by the inner handler, so
the outer handler fires only for `init`. -/
def base_run (platform : String) (init : Except String Unit)
    (fetch : String → String → Except String (List JobListing))
    (keywords locations : List String) : List JobListing × ScraperStats :=
  let stats0 := initStats platform
  match init with
  | Except.error e =>
    ([],
     { stats0 with
         errors := stats0.errors + 2,
         error_messages :=
           stats0.error_messages ++ ["WebDriver init error: " ++ e, "Fatal: " ++ e],
         end_time := some () })
  | Except.ok _ =>
    let res := runTasks fetch (crossTasks keywords locations) ([], stats0)
    (res.1, { res.2 with jobs_saved := res.1.length, end_time := some () })

/-! ## JSearch API pagination — src/jsearch_scraper.py,
JSearchScraper.scrape_jobs -/

/-- One page of the JSearch API as `scrape_jobs` observes it.  `data` is
the `'data'` field of the response JSON: `none` models a missing/null
field, `some items` a list of raw job objects; each raw item is
represented by the result `parse_job` would produce on it (`parse_job`
returns `None` for an unparsable item), since the loop depends only on
the raw item count and the parse outcomes. -/
structure ApiResponse where
  status_code : ℕ
  data : Option (List (Option JobListing))
deriving DecidableEq, Repr

/-- The inner `for job_data in data['data']` loop of `scrape_jobs`
(src/jsearch_scraper.py lines 151-157): append each parsed job until the
per-platform limit is reached; skip unparsable items. -/
def addParsed (max_jobs : ℕ) : List (Option JobListing) → List JobListing → List JobListing
  | [], jobs => jobs
  | item :: rest, jobs =>
    if max_jobs ≤ jobs.length then jobs
    else
      match item with
      | some j => addParsed max_jobs rest (jobs ++ [j])
      | none => addParsed max_jobs rest jobs

/-- Embeds the `while` loop of `JSearchScraper.scrape_jobs`
(src/jsearch_scraper.py lines 105-176).  `getPage page` models
`requests.get` for that page: `Except.error` is a raised
`requests.exceptions.RequestException`, handled at lines 166-169 by
`errors += 1` and `break` — with no message appended.  Status 429 (lines
131-135) appends `"Rate limit exceeded"`, increments `errors` and breaks.
Status 403 raises `ValueError` at line 140, which the generic
`except Exception` handler at lines 171-174 catches inside the same
function: `errors += 1`, `break`, no message, nothing propagates.  Any
other status ≥ 400 raises in `raise_for_status()` and lands in the
RequestException handler: `errors += 1`, `break`, no message.  A missing
or empty `data` field breaks without error; after appending the parsed
items, a raw page shorter than 10 breaks.  `fuel` bounds the number of
page iterations (the Python loop has no such bound and can in principle
loop forever on pages of 10 unparsable items; every claim is settled at
sufficient fuel). -/
def scrape_jobs_loop (getPage : ℕ → Except String ApiResponse) (max_jobs : ℕ) :
    ℕ → ℕ → List JobListing → ScraperStats → List JobListing × ScraperStats
  | 0, _, jobs, stats => (jobs, stats)
  | fuel + 1, page, jobs, stats =>
    if max_jobs ≤ jobs.length then (jobs, stats)
    else
      match getPage page with
      | Except.error _ => (jobs, { stats with errors := stats.errors + 1 })
      | Except.ok resp =>
        if resp.status_code = 429 then
          (jobs,
           { stats with
               errors := stats.errors + 1,
               error_messages := stats.error_messages ++ ["Rate limit exceeded"] })
        else if resp.status_code = 403 then
          (jobs, { stats with errors := stats.errors + 1 })
        else if 400 ≤ resp.status_code then
          (jobs, { stats with errors := stats.errors + 1 })
        else
          match resp.data with
          | none => (jobs, stats)
          | some [] => (jobs, stats)
          | some (item :: items) =>
            let jobs2 := addParsed max_jobs (item :: items) jobs
            if (item :: items).length < 10 then (jobs2, stats)
            else scrape_jobs_loop getPage max_jobs fuel (page + 1) jobs2 stats

/-- Embeds `JSearchScraper.scrape_jobs` (src/jsearch_scraper.py lines
105-176): run the page loop from page 1 with an empty job list, threading
the scraper's shared `stats` object. -/
def jsearch_scrape_jobs (getPage : ℕ → Except String ApiResponse)
    (max_jobs fuel : ℕ) (stats : ScraperStats) : List JobListing × ScraperStats :=
  scrape_jobs_loop getPage max_jobs fuel 1 [] stats

/-- The task loop of `JSearchScraper.run` (src/jsearch_scraper.py lines
73-90).  `scrape` models `self.scrape_jobs`, which mutates the shared
`stats` and returns the page-loop's jobs; it catches every exception
internally, so the loop's own `except` branch (lines 84-87) never fires
and is not reachable in the embedding. -/
def jsearchRunTasks (scrape : String → String → ScraperStats → List JobListing × ScraperStats) :
    List (String × String) → List JobListing × ScraperStats →
    List JobListing × ScraperStats
  | [], acc => acc
  | (keyword, location) :: rest, (all_jobs, stats) =>
    let res := scrape keyword location stats
    jsearchRunTasks scrape rest
      (all_jobs ++ res.1, { res.2 with jobs_found := res.2.jobs_found + res.1.length })

/-- Embeds `JSearchScraper.run` (src/jsearch_scraper.py lines 68-103):
iterate the cross-product of tasks, then set `jobs_saved` and, in the
`finally` block, `end_time`. -/
def jsearch_run (scrape : String → String → ScraperStats → List JobListing × ScraperStats)
    (keywords locations : List String) : List JobListing × ScraperStats :=
  let res := jsearchRunTasks scrape (crossTasks keywords locations) ([], initStats "jsearch")
  (res.1, { res.2 with jobs_saved := res.1.length, end_time := some () })

/-! ## Auxiliary task-level views of a fetch oracle -/

/-- The jobs a task contributes to the run: the fetched list on success,
nothing on failure. -/
def taskResult (fetch : String → String → Except String (List JobListing))
    (t : String × String) : List JobListing :=
  match fetch t.1 t.2 with
  | Except.ok jobs => jobs
  | Except.error _ => []

/-- The error message a task contributes, if it fails. -/
def taskErrMsg (fetch : String → String → Except String (List JobListing))
    (t : String × String) : Option String :=
  match fetch t.1 t.2 with
  | Except.ok _ => none
  | Except.error e => some (t.1 ++ "|" ++ t.2 ++ ": " ++ e)

/-- Whether a task's fetch fails. -/
def taskFailed (fetch : String → String → Except String (List JobListing))
    (t : String × String) : Bool :=
  match fetch t.1 t.2 with
  | Except.ok _ => false
  | Except.error _ => true

/-! ## Concrete inputs used by witnesses and counterexamples -/

/-- A pair of concrete records with equal dedup keys but different
platform and job id (title/company/location differ only in case). -/
def jobA : JobListing :=
  { job_id := "1", platform := "indeed", title := "Dev", company := "Acme",
    location := "NY" }

/-- Second record of the concrete duplicate pair. -/
def jobB : JobListing :=
  { job_id := "2", platform := "jsearch", title := "dev", company := "ACME",
    location := "ny" }

/-- A concrete job returned by the succeeding task of the isolation
scenarios. -/
def jobW : JobListing :=
  { job_id := "w", platform := "jsearch", title := "Data Engineer",
    company := "Widgets", location := "Berlin" }

/-- A fetch oracle that raises exactly on keyword `"a"` (task `("a", "l")`)
and succeeds with `[jobW]` elsewhere. -/
def cexFetch (k : String) (_l : String) : Except String (List JobListing) :=
  if k = "a" then Except.error "boom" else Except.ok [jobW]

/-- The per-task results of `cexFetch` on its succeeding tasks. -/
def cexResults (t : String × String) : List JobListing :=
  if t.1 = "a" then [] else [jobW]

/-- A page oracle that always answers HTTP 429. -/
def cexPage429 : ℕ → Except String ApiResponse :=
  fun _ => Except.ok { status_code := 429, data := some [] }

/-- A page oracle with one last page holding a single parsable job. -/
def cexPageOk : ℕ → Except String ApiResponse :=
  fun _ => Except.ok { status_code := 200, data := some [some jobW] }

/-- A JSearch scrape function whose keyword `"x"` hits the rate limit and
whose other keywords succeed with one job. -/
def cexScrape (k : String) (_l : String) (stats : ScraperStats) :
    List JobListing × ScraperStats :=
  jsearch_scrape_jobs (if k = "x" then cexPage429 else cexPageOk) 50 5 stats

/-! ## Lemmas about the deduplicator -/

theorem hash_not_mem_seen_of_mem_dedupAux :
    ∀ (jobs : List JobListing) (seen : List String) (j : JobListing),
      j ∈ dedupAux jobs seen → generate_hash j ∉ seen := by
  intro jobs
  induction jobs with
  | nil => intro seen j h; simp [dedupAux] at h
  | cons a rest ih =>
    intro seen j h
    by_cases hmem : generate_hash a ∈ seen
    · rw [dedupAux, if_pos hmem] at h
      exact ih seen j h
    · rw [dedupAux, if_neg hmem] at h
      rcases List.mem_cons.mp h with h1 | h1
      · subst h1; exact hmem
      · have := ih (generate_hash a :: seen) j h1
        intro hc
        exact this (List.mem_cons_of_mem _ hc)

theorem nodup_hashes_dedupAux :
    ∀ (jobs : List JobListing) (seen : List String),
      ((dedupAux jobs seen).map generate_hash).Nodup := by
  intro jobs
  induction jobs with
  | nil => intro seen; simp [dedupAux]
  | cons a rest ih =>
    intro seen
    by_cases hmem : generate_hash a ∈ seen
    · rw [dedupAux, if_pos hmem]; exact ih seen
    · rw [dedupAux, if_neg hmem]
      simp only [List.map_cons, List.nodup_cons]
      refine ⟨?_, ih _⟩
      intro hc
      rcases List.mem_map.mp hc with ⟨k, hk, hkeq⟩
      have := hash_not_mem_seen_of_mem_dedupAux rest (generate_hash a :: seen) k hk
      rw [hkeq] at this
      exact this (List.mem_cons_self _ _)

theorem dedupAux_eq_self :
    ∀ (jobs : List JobListing) (seen : List String),
      ((jobs.map generate_hash).Nodup) →
      (∀ j ∈ jobs, generate_hash j ∉ seen) →
      dedupAux jobs seen = jobs := by
  intro jobs
  induction jobs with
  | nil => intro seen _ _; simp [dedupAux]
  | cons a rest ih =>
    intro seen hnd hdisj
    have hmem : generate_hash a ∉ seen := hdisj a (List.mem_cons_self _ _)
    rw [dedupAux, if_neg hmem]
    simp only [List.map_cons, List.nodup_cons] at hnd
    congr 1
    apply ih
    · exact hnd.2
    · intro j hj
      intro hc
      rcases List.mem_cons.mp hc with h1 | h1
      · exact hnd.1 (h1 ▸ List.mem_map_of_mem generate_hash hj)
      · exact hdisj j (List.mem_cons_of_mem _ hj) h1

theorem dedupAux_eq_keepAux :
    ∀ (jobs earlier : List JobListing) (seen : List String),
      (∀ h, h ∈ seen ↔ ∃ k ∈ earlier, generate_hash k = h) →
      dedupAux jobs seen = keepIfNoEarlierAux earlier jobs := by
  intro jobs
  induction jobs with
  | nil => intro earlier seen _; simp [dedupAux, keepIfNoEarlierAux]
  | cons a rest ih =>
    intro earlier seen hinv
    have hset : ∀ h, h ∈ seen ∨ h = generate_hash a ↔
        ∃ k ∈ earlier ++ [a], generate_hash k = h := by
      intro h
      constructor
      · rintro (hs | hs)
        · obtain ⟨k, hk, he⟩ := (hinv h).1 hs
          exact ⟨k, List.mem_append_left _ hk, he⟩
        · exact ⟨a, List.mem_append_right _ (List.mem_singleton.mpr rfl), hs.symm⟩
      · rintro ⟨k, hk, he⟩
        rcases List.mem_append.mp hk with hk1 | hk1
        · exact Or.inl ((hinv h).2 ⟨k, hk1, he⟩)
        · rw [List.mem_singleton.mp hk1] at he
          exact Or.inr he.symm
    by_cases hmem : generate_hash a ∈ seen
    · obtain ⟨k, hk, he⟩ := (hinv _).1 hmem
      have hnall : ¬ ∀ k ∈ earlier, generate_hash k ≠ generate_hash a := by
        push_neg; exact ⟨k, hk, he⟩
      rw [dedupAux, if_pos hmem, keepIfNoEarlierAux, if_neg hnall]
      apply ih
      intro h
      constructor
      · intro hs
        exact (hset h).1 (Or.inl hs)
      · intro hex
        rcases (hset h).2 hex with h1 | h1
        · exact h1
        · rw [h1]; exact hmem
    · have hall : ∀ k ∈ earlier, generate_hash k ≠ generate_hash a := by
        intro k hk hc
        exact hmem ((hinv _).2 ⟨k, hk, hc⟩)
      rw [dedupAux, if_neg hmem, keepIfNoEarlierAux, if_pos hall]
      congr 1
      apply ih
      intro h
      rw [← hset h]
      simp [List.mem_cons, or_comm]

/-! ## Claim C1 — dedup is stable by first-seen order -/

/-- C1: deduplication is stable by first-seen order.  `deduplicate_jobs`
keeps a record iff no earlier record in the sequence has an equal dedup
hash (derived from title, company, location lower-cased); in particular
for records A, B with equal hashes, `deduplicate_jobs [A, B] = [A]` and
`deduplicate_jobs [B, A] = [B]`, regardless of the records' platform or
job id. -/
theorem dedup_first_seen_order :
    (∀ jobs : List JobListing, deduplicate_jobs jobs = keepIfNoEarlier jobs) ∧
    (∀ A B : JobListing, generate_hash A = generate_hash B →
      deduplicate_jobs [A, B] = [A] ∧ deduplicate_jobs [B, A] = [B]) := by
  constructor
  · intro jobs
    apply dedupAux_eq_keepAux
    intro h; simp
  · intro A B hAB
    constructor
    · simp [deduplicate_jobs, dedupAux, hAB]
    · simp [deduplicate_jobs, dedupAux, hAB]

theorem dedup_first_seen_order_witness :
    generate_hash jobA = generate_hash jobB ∧
    deduplicate_jobs [jobA, jobB] = [jobA] ∧
    deduplicate_jobs [jobB, jobA] = [jobB] :=
  ⟨by decide,
   (dedup_first_seen_order.2 jobA jobB (by decide)).1,
   (dedup_first_seen_order.2 jobA jobB (by decide)).2⟩

/-! ## Claim C9 — dedup is idempotent -/

/-- C9: deduplication is idempotent: for every sequence of job records,
`deduplicate_jobs (deduplicate_jobs X) = deduplicate_jobs X`. -/
theorem dedup_idempotent :
    ∀ jobs : List JobListing,
      deduplicate_jobs (deduplicate_jobs jobs) = deduplicate_jobs jobs := by
  intro jobs
  apply dedupAux_eq_self
  · exact nodup_hashes_dedupAux jobs []
  · intro j _; simp

/-! ## Claim C2 — salary parsing -/

/-- C2: for every input string, `parse_salary` strips currency symbols,
thousands separators and the unit words, extracts all numeric tokens, and
returns `(none, none)` for zero tokens, `(v, v)` for one token, and
`(first, second)` in source-text order for two or more tokens, with no
min/max reordering; concretely `"$80,000 - $100,000 a year"` gives
`(80000, 100000)`, `"$45/hr"` gives `(45, 45)`, and `""` gives
`(none, none)`. -/
theorem parse_salary_spec :
    (∀ s : String, findNumbers (stripSalary s).data = [] →
      parse_salary s = (none, none)) ∧
    (∀ (s : String) (n : List Char), findNumbers (stripSalary s).data = [n] →
      parse_salary s = (some (floatOfToken n), some (floatOfToken n))) ∧
    (∀ (s : String) (n1 n2 : List Char) (rest : List (List Char)),
      findNumbers (stripSalary s).data = n1 :: n2 :: rest →
      parse_salary s = (some (floatOfToken n1), some (floatOfToken n2))) ∧
    parse_salary "$80,000 - $100,000 a year" = (some 80000, some 100000) ∧
    parse_salary "$45/hr" = (some 45, some 45) ∧
    parse_salary "" = (none, none) := by
  have hempty : findNumbers (stripSalary "").data = [] := by decide
  refine ⟨?_, ?_, ?_, by decide, by decide, by decide⟩
  · intro s h
    by_cases hs : s = ""
    · simp [parse_salary, hs]
    · simp [parse_salary, hs, h]
  · intro s n h
    by_cases hs : s = ""
    · rw [hs] at h; rw [hempty] at h; cases h
    · simp [parse_salary, hs, h]
  · intro s n1 n2 rest h
    by_cases hs : s = ""
    · rw [hs] at h; rw [hempty] at h; cases h
    · simp [parse_salary, hs, h]

theorem parse_salary_spec_witness :
    findNumbers (stripSalary "$45/hr").data = [['4', '5']] ∧
    parse_salary "$45/hr" =
      (some (floatOfToken ['4', '5']), some (floatOfToken ['4', '5'])) :=
  ⟨by decide, parse_salary_spec.2.1 "$45/hr" ['4', '5'] (by decide)⟩

/-! ## Claim C4 — the salary_min ≤ salary_max invariant fails -/

/-- C4 counterexample: a record constructed by the Indeed adapter from the
salary text `"$100,000 - $80,000 a year"` has both bounds present with
`salary_min = 100000 > 80000 = salary_max`, because `parse_salary` returns
the tokens in source-text order without reordering. -/
theorem salary_invariant_counterexample :
    (indeed_extract 0 "j1" "Engineer" "Acme" "NY" "$100,000 - $80,000 a year"
      "great role" "NY").salary_min = some 100000 ∧
    (indeed_extract 0 "j1" "Engineer" "Acme" "NY" "$100,000 - $80,000 a year"
      "great role" "NY").salary_max = some 80000 ∧
    ¬ ((100000 : ℚ) ≤ (80000 : ℚ)) := by
  refine ⟨by decide, by decide, by norm_num⟩

/-- C4 amended: when a parse produces both bounds, either the text had a
single numeric token and the bounds are equal, or the bounds are the first
two tokens in source-text order — so `salary_min ≤ salary_max` holds
exactly when the first token's value does not exceed the second's (the
code never enforces it). -/
theorem salary_minmax_amended :
    ∀ (s : String) (a b : ℚ), parse_salary s = (some a, some b) →
      (∃ n, findNumbers (stripSalary s).data = [n] ∧ a = b) ∨
      (∃ n1 n2 rest, findNumbers (stripSalary s).data = n1 :: n2 :: rest ∧
        a = floatOfToken n1 ∧ b = floatOfToken n2 ∧
        (floatOfToken n1 ≤ floatOfToken n2 → a ≤ b)) := by
  intro s a b h
  by_cases hs : s = ""
  · rw [hs] at h; simp [parse_salary] at h
  · rw [parse_salary, if_neg hs] at h
    rcases htoks : findNumbers (stripSalary s).data with _ | ⟨n1, _ | ⟨n2, rest⟩⟩
    · rw [htoks] at h; simp at h
    · rw [htoks] at h
      simp only [Prod.mk.injEq, Option.some.injEq] at h
      exact Or.inl ⟨n1, rfl, h.1.symm.trans h.2⟩
    · rw [htoks] at h
      simp only [Prod.mk.injEq, Option.some.injEq] at h
      exact Or.inr ⟨n1, n2, rest, rfl, h.1.symm, h.2.symm, fun hle => h.1 ▸ h.2 ▸ hle⟩

theorem salary_minmax_amended_witness :
    (∃ n, findNumbers (stripSalary "$80,000 - $100,000 a year").data = [n] ∧
      (80000 : ℚ) = 100000) ∨
    (∃ n1 n2 rest,
      findNumbers (stripSalary "$80,000 - $100,000 a year").data = n1 :: n2 :: rest ∧
      (80000 : ℚ) = floatOfToken n1 ∧ (100000 : ℚ) = floatOfToken n2 ∧
      (floatOfToken n1 ≤ floatOfToken n2 → (80000 : ℚ) ≤ 100000)) :=
  salary_minmax_amended "$80,000 - $100,000 a year" 80000 100000 (by decide)

/-! ## Claim C3 — remote-classification precedence -/

/-- C3 counterexample: in the JSearch adapter the hybrid keyword check
runs after the remote classification and overrides it, so a job whose
title contains both a remote keyword and the hybrid keyword (and whose
`job_is_remote` flag is even set) is classified `"hybrid"`, not
`"remote"`. -/
theorem remote_precedence_counterexample :
    strContains (pyLower "Remote and Hybrid Engineer") "remote" = true ∧
    strContains (pyLower "Remote and Hybrid Engineer") "hybrid" = true ∧
    jsearchRemoteType true "Remote and Hybrid Engineer" "" = "hybrid" ∧
    jsearchRemoteType true "Remote and Hybrid Engineer" "" ≠ "remote" := by
  refine ⟨by decide, by decide, by decide, by decide⟩

/-- C3 amended: in the Indeed and python.org adapters the remote keywords
are tested before the hybrid keyword, so text containing both yields
`"remote"`; in the JSearch adapter the hybrid check runs after the remote
flag and overrides it, so any occurrence of `"hybrid"` in title or
description yields `"hybrid"` regardless of the remote signal. -/
theorem remote_precedence_amended :
    (∀ title snippet,
      (["remote", "work from home"].any
        (fun w => strContains (pyLower title) w || strContains (pyLower snippet) w)) = true →
      indeedRemoteType title snippet = "remote") ∧
    (∀ location description,
      (["remote", "work from home", "wfh"].any
        (fun w => strContains (pyLower (location ++ " " ++ description)) w)) = true →
      pythonOrgRemoteType location description = "remote") ∧
    (∀ (is_remote : Bool) (title description : String),
      (strContains (pyLower title) "hybrid" || strContains (pyLower description) "hybrid") = true →
      jsearchRemoteType is_remote title description = "hybrid") := by
  refine ⟨fun title snippet h => ?_, fun location description h => ?_,
    fun is_remote title description h => ?_⟩
  · simp [indeedRemoteType, h]
  · simp [pythonOrgRemoteType, h]
  · simp [jsearchRemoteType, h]

theorem remote_precedence_amended_witness :
    indeedRemoteType "Remote and Hybrid Engineer" "" = "remote" ∧
    pythonOrgRemoteType "Remote" "hybrid welcome" = "remote" ∧
    jsearchRemoteType true "Remote and Hybrid Engineer" "" = "hybrid" :=
  ⟨remote_precedence_amended.1 "Remote and Hybrid Engineer" "" (by decide),
   remote_precedence_amended.2.1 "Remote" "hybrid welcome" (by decide),
   remote_precedence_amended.2.2 true "Remote and Hybrid Engineer" "" (by decide)⟩

/-! ## Claim C6 — classification is total with documented defaults -/

/-- C6: every classification mapping is total (embedded as a Lean function,
it never raises) and returns a value of its fixed enum; with no
recognizable job-type keyword the result is `"full-time"`, with no
experience keyword `"mid"`, and with no remote signal `"on-site"`. -/
theorem classification_total_with_defaults :
    (∀ s, map_employment_type s ∈ ["full-time", "part-time", "contract", "internship"]) ∧
    (∀ j, pythonOrgJobType j ∈ ["full-time", "part-time", "contract", "internship"]) ∧
    (∀ s, indeedJobType s ∈ ["full-time", "part-time", "contract", "internship"]) ∧
    (∀ t d, detect_experience_level t d ∈ ["entry", "mid", "senior"]) ∧
    (∀ t s, indeedExperience t s ∈ ["entry", "mid", "senior"]) ∧
    (∀ t s, indeedRemoteType t s ∈ ["remote", "hybrid", "on-site"]) ∧
    (∀ l d, pythonOrgRemoteType l d ∈ ["remote", "hybrid", "on-site"]) ∧
    (∀ r t d, jsearchRemoteType r t d ∈ ["remote", "hybrid", "on-site"]) ∧
    (∀ s, pyUpper s ∉ ["FULLTIME", "PARTTIME", "CONTRACTOR", "INTERN"] →
      map_employment_type s = "full-time") ∧
    (∀ s, strContains (pyLower s) "part-time" = false →
      strContains (pyLower s) "part time" = false →
      strContains (pyLower s) "contract" = false →
      strContains (pyLower s) "contractor" = false →
      indeedJobType s = "full-time") ∧
    (∀ t d,
      (["senior", "sr.", "lead", "principal", "staff", "architect", "director"].any
        (fun k => strContains (pyLower (t ++ " " ++ d)) k)) = false →
      (["junior", "jr.", "entry", "associate", "graduate", "intern"].any
        (fun k => strContains (pyLower (t ++ " " ++ d)) k)) = false →
      detect_experience_level t d = "mid") ∧
    (∀ t s,
      (["senior", "lead", "principal"].any
        (fun w => strContains (pyLower t) w || strContains (pyLower s) w)) = false →
      (["junior", "entry", "associate"].any
        (fun w => strContains (pyLower t) w || strContains (pyLower s) w)) = false →
      indeedExperience t s = "mid") ∧
    (∀ t s,
      (["remote", "work from home"].any
        (fun w => strContains (pyLower t) w || strContains (pyLower s) w)) = false →
      (strContains (pyLower t) "hybrid" || strContains (pyLower s) "hybrid") = false →
      indeedRemoteType t s = "on-site") ∧
    (∀ l d,
      (["remote", "work from home", "wfh"].any
        (fun w => strContains (pyLower (l ++ " " ++ d)) w)) = false →
      strContains (pyLower (l ++ " " ++ d)) "hybrid" = false →
      pythonOrgRemoteType l d = "on-site") ∧
    (∀ t d,
      (strContains (pyLower t) "hybrid" || strContains (pyLower d) "hybrid") = false →
      jsearchRemoteType false t d = "on-site") := by
  refine ⟨?_, ?_, ?_, ?_, ?_, ?_, ?_, ?_, ?_, ?_, ?_, ?_, ?_, ?_, ?_⟩
  · intro s; unfold map_employment_type; dsimp only; split_ifs <;> simp
  · intro j; unfold pythonOrgJobType; dsimp only; split_ifs <;> simp
  · intro s; unfold indeedJobType; dsimp only; split_ifs <;> simp
  · intro t d; unfold detect_experience_level; dsimp only; split_ifs <;> simp
  · intro t s; unfold indeedExperience; split_ifs <;> simp
  · intro t s; unfold indeedRemoteType; split_ifs <;> simp
  · intro l d; unfold pythonOrgRemoteType; dsimp only; split_ifs <;> simp
  · intro r t d; unfold jsearchRemoteType; dsimp only; split_ifs <;> simp
  · intro s h
    simp only [List.mem_cons, List.not_mem_nil, or_false, not_or] at h
    simp [map_employment_type, h.1, h.2.1, h.2.2.1, h.2.2.2]
  · intro s h1 h2 h3 h4
    simp [indeedJobType, h1, h2, h3, h4]
  · intro t d h1 h2
    simp only [detect_experience_level, h1, h2]
    simp
  · intro t s h1 h2
    simp only [indeedExperience, h1, h2]
    simp
  · intro t s h1 h2
    simp only [indeedRemoteType, h1, h2]
    simp
  · intro l d h1 h2
    simp only [pythonOrgRemoteType, h1, h2]
    simp
  · intro t d h
    simp [jsearchRemoteType, h]

theorem classification_total_with_defaults_witness :
    map_employment_type "CHEF" = "full-time" ∧
    indeedJobType "sell widgets" = "full-time" ∧
    detect_experience_level "Developer" "build things" = "mid" ∧
    indeedExperience "Developer" "build things" = "mid" ∧
    indeedRemoteType "Developer" "build things" = "on-site" ∧
    pythonOrgRemoteType "Paris" "build things" = "on-site" ∧
    jsearchRemoteType false "Developer" "build things" = "on-site" := by
  obtain ⟨-, -, -, -, -, -, -, -, h1, h2, h3, h4, h5, h6, h7⟩ :=
    classification_total_with_defaults
  exact ⟨h1 "CHEF" (by decide),
    h2 "sell widgets" (by decide) (by decide) (by decide) (by decide),
    h3 "Developer" "build things" (by decide) (by decide),
    h4 "Developer" "build things" (by decide) (by decide),
    h5 "Developer" "build things" (by decide) (by decide),
    h6 "Paris" "build things" (by decide) (by decide),
    h7 "Developer" "build things" (by decide)⟩

/-! ## Lemmas about the run loops -/

theorem runTasks_fst (fetch : String → String → Except String (List JobListing)) :
    ∀ (ts : List (String × String)) (jobs0 : List JobListing) (stats0 : ScraperStats),
      (runTasks fetch ts (jobs0, stats0)).1 = jobs0 ++ ts.flatMap (taskResult fetch) := by
  intro ts
  induction ts with
  | nil => intro jobs0 stats0; simp [runTasks]
  | cons t rest ih =>
    intro jobs0 stats0
    obtain ⟨k, l⟩ := t
    simp only [runTasks]
    cases hf : fetch k l with
    | ok js => simp [hf, ih, taskResult, List.append_assoc]
    | error e => simp [hf, ih, taskResult]

theorem runTasks_error_messages
    (fetch : String → String → Except String (List JobListing)) :
    ∀ (ts : List (String × String)) (jobs0 : List JobListing) (stats0 : ScraperStats),
      (runTasks fetch ts (jobs0, stats0)).2.error_messages =
        stats0.error_messages ++ ts.filterMap (taskErrMsg fetch) := by
  intro ts
  induction ts with
  | nil => intro jobs0 stats0; simp [runTasks]
  | cons t rest ih =>
    intro jobs0 stats0
    obtain ⟨k, l⟩ := t
    simp only [runTasks]
    cases hf : fetch k l with
    | ok js => simp [hf, ih, taskErrMsg]
    | error e => simp [hf, ih, taskErrMsg]

theorem runTasks_errors (fetch : String → String → Except String (List JobListing)) :
    ∀ (ts : List (String × String)) (jobs0 : List JobListing) (stats0 : ScraperStats),
      (runTasks fetch ts (jobs0, stats0)).2.errors =
        stats0.errors + (ts.filter (taskFailed fetch)).length := by
  intro ts
  induction ts with
  | nil => intro jobs0 stats0; simp [runTasks]
  | cons t rest ih =>
    intro jobs0 stats0
    obtain ⟨k, l⟩ := t
    simp only [runTasks]
    cases hf : fetch k l with
    | ok js => simp [hf, ih, taskFailed]
    | error e => simp [hf, ih, taskFailed]; omega

theorem runTasks_end_time (fetch : String → String → Except String (List JobListing)) :
    ∀ (ts : List (String × String)) (jobs0 : List JobListing) (stats0 : ScraperStats),
      (runTasks fetch ts (jobs0, stats0)).2.end_time = stats0.end_time := by
  intro ts
  induction ts with
  | nil => intro jobs0 stats0; simp [runTasks]
  | cons t rest ih =>
    intro jobs0 stats0
    obtain ⟨k, l⟩ := t
    simp only [runTasks]
    cases hf : fetch k l with
    | ok js => simp [hf, ih]
    | error e => simp [hf, ih]

theorem flatMap_eq_filter_ne (ts : List (String × String))
    (f : String × String → List JobListing) (a : String × String) (hf : f a = []) :
    ts.flatMap f = (ts.filter (fun t => t ≠ a)).flatMap f := by
  induction ts with
  | nil => simp
  | cons t rest ih =>
    by_cases ht : t = a
    · subst ht
      simp [List.filter_cons, hf, ih]
    · simp [List.filter_cons, ht, ih]

theorem flatMap_congr_on (ts : List (String × String))
    (f g : String × String → List JobListing) (h : ∀ t ∈ ts, f t = g t) :
    ts.flatMap f = ts.flatMap g := by
  induction ts with
  | nil => simp
  | cons t rest ih =>
    simp only [List.flatMap_cons]
    rw [h t (List.mem_cons_self _ _), ih (fun u hu => h u (List.mem_cons_of_mem _ hu))]

theorem filterMap_eq_single (ts : List (String × String))
    (f : String × String → Option String) (a : String × String) (m : String)
    (hcount : ts.count a = 1) (hfa : f a = some m)
    (hother : ∀ t ∈ ts, t ≠ a → f t = none) :
    ts.filterMap f = [m] := by
  induction ts with
  | nil => simp at hcount
  | cons t rest ih =>
    by_cases ht : t = a
    · subst ht
      rw [List.count_cons_self] at hcount
      have hnot : t ∉ rest := by
        rw [← List.count_pos_iff]
        omega
      have hrest : rest.filterMap f = [] := by
        rw [List.filterMap_eq_nil_iff]
        intro u hu
        have hne : u ≠ t := fun he => hnot (he ▸ hu)
        exact hother u (List.mem_cons_of_mem _ hu) hne
      simp [List.filterMap_cons, hfa, hrest]
    · rw [List.count_cons_of_ne (fun he => ht he.symm)] at hcount
      have hft : f t = none := hother t (List.mem_cons_self _ _) ht
      rw [List.filterMap_cons, hft]
      exact ih hcount (fun u hu hne => hother u (List.mem_cons_of_mem _ hu) hne)

theorem scrape_loop_fst_stats_independent
    (getPage : ℕ → Except String ApiResponse) (max_jobs : ℕ) :
    ∀ (fuel page : ℕ) (jobs : List JobListing) (stats stats' : ScraperStats),
      (scrape_jobs_loop getPage max_jobs fuel page jobs stats).1 =
      (scrape_jobs_loop getPage max_jobs fuel page jobs stats').1 := by
  intro fuel
  induction fuel with
  | zero => intro page jobs stats stats'; rfl
  | succ fuel ih =>
    intro page jobs stats stats'
    simp only [scrape_jobs_loop]
    by_cases hmax : max_jobs ≤ jobs.length
    · simp [hmax]
    · simp only [if_neg hmax]
      cases hg : getPage page with
      | error e => rfl
      | ok resp =>
        by_cases h429 : resp.status_code = 429
        · simp [h429]
        · simp only [if_neg h429]
          by_cases h403 : resp.status_code = 403
          · simp [h403]
          · simp only [if_neg h403]
            by_cases h400 : 400 ≤ resp.status_code
            · simp [h400]
            · simp only [if_neg h400]
              rcases hd : resp.data with _ | ⟨_ | ⟨item, items⟩⟩
              · rfl
              · rfl
              · dsimp only
                by_cases hlen : items.length + 1 < 10
                · simp [hlen]
                · simp only [List.length_cons, if_neg hlen]
                  exact ih (page + 1) (addParsed max_jobs (item :: items) jobs) stats stats'

theorem jsearchRunTasks_fst
    (scrape : String → String → ScraperStats → List JobListing × ScraperStats)
    (hind : ∀ k l s s', (scrape k l s).1 = (scrape k l s').1) :
    ∀ (ts : List (String × String)) (jobs0 : List JobListing) (stats0 : ScraperStats),
      (jsearchRunTasks scrape ts (jobs0, stats0)).1 =
        jobs0 ++ ts.flatMap (fun t => (scrape t.1 t.2 (initStats "jsearch")).1) := by
  intro ts
  induction ts with
  | nil => intro jobs0 stats0; simp [jsearchRunTasks]
  | cons t rest ih =>
    intro jobs0 stats0
    obtain ⟨k, l⟩ := t
    simp only [jsearchRunTasks]
    rw [ih]
    rw [hind k l stats0 (initStats "jsearch")]
    simp [List.append_assoc]

/-! ## Claim C5 — failure isolation -/

/-- C5: if fetching raises for exactly one task `(X, Y)` of the
cross-product and succeeds for every other task, the run still returns the
concatenated results of all the other tasks, in order, and the source's
`error_messages` contains exactly one entry for `(X, Y)` (formatted
`"X|Y: e"`). -/
theorem failure_isolation
    (platform : String)
    (fetch : String → String → Except String (List JobListing))
    (keywords locations : List String) (X Y e : String)
    (results : String × String → List JobListing)
    (hcount : (crossTasks keywords locations).count (X, Y) = 1)
    (hfail : fetch X Y = Except.error e)
    (hok : ∀ t ∈ crossTasks keywords locations, t ≠ (X, Y) →
      fetch t.1 t.2 = Except.ok (results t)) :
    (base_run platform (Except.ok ()) fetch keywords locations).1 =
      ((crossTasks keywords locations).filter (fun t => t ≠ (X, Y))).flatMap results ∧
    (base_run platform (Except.ok ()) fetch keywords locations).2.error_messages =
      [X ++ "|" ++ Y ++ ": " ++ e] := by
  constructor
  · show (runTasks fetch (crossTasks keywords locations) ([], initStats platform)).1 = _
    rw [runTasks_fst]
    rw [List.nil_append]
    rw [flatMap_eq_filter_ne _ _ (X, Y) (by simp [taskResult, hfail])]
    apply flatMap_congr_on
    intro t ht
    rw [List.mem_filter] at ht
    have hne : t ≠ (X, Y) := by
      have := ht.2
      simpa using this
    simp [taskResult, hok t ht.1 hne]
  · show (runTasks fetch (crossTasks keywords locations) ([], initStats platform)).2.error_messages = _
    rw [runTasks_error_messages]
    rw [show (initStats platform).error_messages = [] from rfl, List.nil_append]
    apply filterMap_eq_single _ _ (X, Y) _ hcount
    · simp [taskErrMsg, hfail]
    · intro t ht hne
      simp [taskErrMsg, hok t ht hne]

theorem failure_isolation_witness :
    (base_run "indeed" (Except.ok ()) cexFetch ["a", "b"] ["l"]).1 = [jobW] ∧
    (base_run "indeed" (Except.ok ()) cexFetch ["a", "b"] ["l"]).2.error_messages =
      ["a|l: boom"] := by
  have h := failure_isolation "indeed" cexFetch ["a", "b"] ["l"] "a" "l" "boom"
    cexResults (by decide) rfl
    (by
      intro t ht hne
      fin_cases ht
      · exact absurd rfl hne
      · rfl)
  exact ⟨h.1.trans (by decide), h.2.trans (by decide)⟩

/-! ## Claim C7 — the error-recording policy has silent paths -/

/-- C7 counterexample: a transport failure inside
`JSearchScraper.scrape_jobs` (a raised `RequestException`, here a
connection timeout on the first page) increments the error count and
abandons the task while appending nothing to `error_messages` — an error
path the claim says does not exist. -/
theorem error_propagation_counterexample :
    (jsearch_scrape_jobs (fun _ => Except.error "Connection timed out") 50 5
      (initStats "jsearch")).2.errors = 1 ∧
    (jsearch_scrape_jobs (fun _ => Except.error "Connection timed out") 50 5
      (initStats "jsearch")).2.error_messages = [] := by
  refine ⟨by decide, by decide⟩

/-- C7 amended: every failure that reaches the run loop appends exactly
one formatted message, and the HTTP 429 page failure appends
`"Rate limit exceeded"`; but a transport failure, an HTTP 403 (whose
`ValueError` is caught by the loop's own generic handler) and any other
status ≥ 400 inside `JSearchScraper.scrape_jobs` increment the error count
and abandon the task without appending any message. -/
theorem error_recording_amended :
    (∀ (fetch : String → String → Except String (List JobListing))
       (ts : List (String × String)) (jobs0 : List JobListing) (stats0 : ScraperStats),
      (runTasks fetch ts (jobs0, stats0)).2.error_messages =
        stats0.error_messages ++ ts.filterMap (taskErrMsg fetch) ∧
      (runTasks fetch ts (jobs0, stats0)).2.errors =
        stats0.errors + (ts.filter (taskFailed fetch)).length) ∧
    (∀ (getPage : ℕ → Except String ApiResponse) (max_jobs fuel page : ℕ)
       (jobs : List JobListing) (stats : ScraperStats) (resp : ApiResponse),
      jobs.length < max_jobs → getPage page = Except.ok resp →
      resp.status_code = 429 →
      scrape_jobs_loop getPage max_jobs (fuel + 1) page jobs stats =
        (jobs,
         { stats with
             errors := stats.errors + 1
             error_messages := stats.error_messages ++ ["Rate limit exceeded"] })) ∧
    (∀ (getPage : ℕ → Except String ApiResponse) (max_jobs fuel page : ℕ)
       (jobs : List JobListing) (stats : ScraperStats) (e : String),
      jobs.length < max_jobs → getPage page = Except.error e →
      scrape_jobs_loop getPage max_jobs (fuel + 1) page jobs stats =
        (jobs, { stats with errors := stats.errors + 1 })) ∧
    (∀ (getPage : ℕ → Except String ApiResponse) (max_jobs fuel page : ℕ)
       (jobs : List JobListing) (stats : ScraperStats) (resp : ApiResponse),
      jobs.length < max_jobs → getPage page = Except.ok resp →
      (resp.status_code = 403 ∨ (resp.status_code ≠ 429 ∧ 400 ≤ resp.status_code)) →
      scrape_jobs_loop getPage max_jobs (fuel + 1) page jobs stats =
        (jobs, { stats with errors := stats.errors + 1 })) := by
  refine ⟨?_, ?_, ?_, ?_⟩
  · intro fetch ts jobs0 stats0
    exact ⟨runTasks_error_messages fetch ts jobs0 stats0, runTasks_errors fetch ts jobs0 stats0⟩
  · intro getPage max_jobs fuel page jobs stats resp hlt hg h429
    simp [scrape_jobs_loop, Nat.not_le.mpr hlt, hg, h429]
  · intro getPage max_jobs fuel page jobs stats e hlt hg
    simp [scrape_jobs_loop, Nat.not_le.mpr hlt, hg]
  · intro getPage max_jobs fuel page jobs stats resp hlt hg hcase
    rcases hcase with h403 | ⟨h429, h400⟩
    · have h429 : resp.status_code ≠ 429 := by omega
      simp [scrape_jobs_loop, Nat.not_le.mpr hlt, hg, h429, h403]
    · by_cases h403 : resp.status_code = 403
      · simp [scrape_jobs_loop, Nat.not_le.mpr hlt, hg, h429, h403]
      · simp [scrape_jobs_loop, Nat.not_le.mpr hlt, hg, h429, h403, h400]

theorem error_recording_amended_witness :
    scrape_jobs_loop (fun _ => Except.error "boom") 50 (3 + 1) 1 []
      (initStats "jsearch") =
      ([], { platform := "jsearch", errors := 1 }) :=
  (error_recording_amended.2.2.1 (fun _ => Except.error "boom") 50 3 1 []
    (initStats "jsearch") "boom" (by decide) rfl).trans (by decide)

/-! ## Claim C8 — pagination and HTTP status handling -/

/-- C8 counterexample: HTTP 429 is not source-fatal.  With two tasks where
the first hits the rate limit and the second succeeds, the run still
executes the second task and returns its job — the remaining tasks of the
source are not abandoned. -/
theorem http429_not_source_fatal :
    (jsearch_run cexScrape ["x", "y"] ["l"]).1 = [jobW] ∧
    (jsearch_run cexScrape ["x", "y"] ["l"]).2.error_messages =
      ["Rate limit exceeded"] ∧
    (jsearch_run cexScrape ["x", "y"] ["l"]).2.errors = 1 := by
  refine ⟨by decide, by decide, by decide⟩

/-- C8 amended: the fetch loop stops on an empty data page, on a page with
fewer than 10 raw items, or when the limit is reached; HTTP 429 increments
the error count, appends `"Rate limit exceeded"` and abandons only the
current task without retry — the remaining tasks of the source still run;
HTTP 403 raises a `ValueError` that the loop's own generic handler
catches, so the task is abandoned with the error counted and nothing
propagates to the caller; any other response with status ≥ 400 abandons
the task with the error counted. -/
theorem jsearch_pagination_amended :
    (∀ (getPage : ℕ → Except String ApiResponse) (max_jobs fuel page : ℕ)
       (jobs : List JobListing) (stats : ScraperStats),
      max_jobs ≤ jobs.length →
      scrape_jobs_loop getPage max_jobs fuel page jobs stats = (jobs, stats)) ∧
    (∀ (getPage : ℕ → Except String ApiResponse) (max_jobs fuel page : ℕ)
       (jobs : List JobListing) (stats : ScraperStats) (resp : ApiResponse),
      jobs.length < max_jobs → getPage page = Except.ok resp →
      resp.status_code ≠ 429 → resp.status_code ≠ 403 → resp.status_code < 400 →
      (resp.data = none ∨ resp.data = some []) →
      scrape_jobs_loop getPage max_jobs (fuel + 1) page jobs stats = (jobs, stats)) ∧
    (∀ (getPage : ℕ → Except String ApiResponse) (max_jobs fuel page : ℕ)
       (jobs : List JobListing) (stats : ScraperStats) (resp : ApiResponse)
       (item : Option JobListing) (items : List (Option JobListing)),
      jobs.length < max_jobs → getPage page = Except.ok resp →
      resp.status_code ≠ 429 → resp.status_code ≠ 403 → resp.status_code < 400 →
      resp.data = some (item :: items) → (item :: items).length < 10 →
      scrape_jobs_loop getPage max_jobs (fuel + 1) page jobs stats =
        (addParsed max_jobs (item :: items) jobs, stats)) ∧
    (∀ (getPage : ℕ → Except String ApiResponse) (max_jobs fuel page : ℕ)
       (jobs : List JobListing) (stats : ScraperStats) (resp : ApiResponse),
      jobs.length < max_jobs → getPage page = Except.ok resp →
      resp.status_code = 429 →
      scrape_jobs_loop getPage max_jobs (fuel + 1) page jobs stats =
        (jobs,
         { stats with
             errors := stats.errors + 1
             error_messages := stats.error_messages ++ ["Rate limit exceeded"] })) ∧
    (∀ (getPageFor : String → String → ℕ → Except String ApiResponse)
       (max_jobs fuel : ℕ) (keywords locations : List String),
      (jsearch_run (fun k l => jsearch_scrape_jobs (getPageFor k l) max_jobs fuel)
        keywords locations).1 =
        (crossTasks keywords locations).flatMap
          (fun t => (jsearch_scrape_jobs (getPageFor t.1 t.2) max_jobs fuel
            (initStats "jsearch")).1)) ∧
    (∀ (getPage : ℕ → Except String ApiResponse) (max_jobs fuel page : ℕ)
       (jobs : List JobListing) (stats : ScraperStats) (resp : ApiResponse),
      jobs.length < max_jobs → getPage page = Except.ok resp →
      resp.status_code = 403 →
      scrape_jobs_loop getPage max_jobs (fuel + 1) page jobs stats =
        (jobs, { stats with errors := stats.errors + 1 })) ∧
    (∀ (getPage : ℕ → Except String ApiResponse) (max_jobs fuel page : ℕ)
       (jobs : List JobListing) (stats : ScraperStats) (resp : ApiResponse),
      jobs.length < max_jobs → getPage page = Except.ok resp →
      resp.status_code ≠ 429 → resp.status_code ≠ 403 → 400 ≤ resp.status_code →
      scrape_jobs_loop getPage max_jobs (fuel + 1) page jobs stats =
        (jobs, { stats with errors := stats.errors + 1 })) := by
  refine ⟨?_, ?_, ?_, ?_, ?_, ?_, ?_⟩
  · intro getPage max_jobs fuel page jobs stats hmax
    cases fuel with
    | zero => rfl
    | succ fuel => simp [scrape_jobs_loop, hmax]
  · intro getPage max_jobs fuel page jobs stats resp hlt hg h429 h403 h400 hdata
    rcases hdata with hd | hd <;>
      simp [scrape_jobs_loop, Nat.not_le.mpr hlt, hg, h429, h403, Nat.not_le.mpr h400, hd]
  · intro getPage max_jobs fuel page jobs stats resp item items hlt hg h429 h403 h400 hd hlen
    simp only [List.length_cons] at hlen
    simp [scrape_jobs_loop, Nat.not_le.mpr hlt, hg, h429, h403, Nat.not_le.mpr h400, hd, hlen]
  · intro getPage max_jobs fuel page jobs stats resp hlt hg h429
    simp [scrape_jobs_loop, Nat.not_le.mpr hlt, hg, h429]
  · intro getPageFor max_jobs fuel keywords locations
    show (jsearchRunTasks _ (crossTasks keywords locations) ([], initStats "jsearch")).1 = _
    rw [jsearchRunTasks_fst]
    · rw [List.nil_append]
    · intro k l s s'
      exact scrape_loop_fst_stats_independent (getPageFor k l) max_jobs fuel 1 [] s s'
  · intro getPage max_jobs fuel page jobs stats resp hlt hg h403
    have h429 : resp.status_code ≠ 429 := by omega
    simp [scrape_jobs_loop, Nat.not_le.mpr hlt, hg, h429, h403]
  · intro getPage max_jobs fuel page jobs stats resp hlt hg h429 h403 h400
    simp [scrape_jobs_loop, Nat.not_le.mpr hlt, hg, h429, h403, h400]

theorem jsearch_pagination_amended_witness :
    scrape_jobs_loop cexPage429 50 (4 + 1) 1 [] (initStats "jsearch") =
      ([], { platform := "jsearch", errors := 1,
             error_messages := ["Rate limit exceeded"] }) ∧
    scrape_jobs_loop cexPageOk 50 (4 + 1) 1 [] (initStats "jsearch") =
      (addParsed 50 [some jobW] [], initStats "jsearch") :=
  ⟨(jsearch_pagination_amended.2.2.2.1 cexPage429 50 4 1 [] (initStats "jsearch")
      { status_code := 429, data := some [] } (by decide) rfl rfl).trans (by decide),
   jsearch_pagination_amended.2.2.1 cexPageOk 50 4 1 [] (initStats "jsearch")
      { status_code := 200, data := some [some jobW] } (some jobW) []
      (by decide) rfl (by decide) (by decide) (by decide) rfl (by decide)⟩

/-! ## Claim C10 — run() is total, finalizes stats and returns the
accumulated jobs -/

/-- C10: an adapter's `run()` never propagates an exception (it is a total
function of its oracles in this embedding — every per-task error and the
driver-init fatal error are caught and counted in its stats), it returns
exactly the jobs accumulated before any failure (empty when driver init
fails, the concatenation of every task's successful fetches otherwise),
and `end_time` is set on every exit path of both `BaseScraper.run` and
`JSearchScraper.run`. -/
theorem run_total_and_finalized :
    (∀ (platform : String) (init : Except String Unit)
       (fetch : String → String → Except String (List JobListing))
       (keywords locations : List String),
      (base_run platform init fetch keywords locations).2.end_time = some () ∧
      (base_run platform init fetch keywords locations).1 =
        (match init with
         | Except.error _ => []
         | Except.ok _ => (crossTasks keywords locations).flatMap (taskResult fetch)) ∧
      (base_run platform init fetch keywords locations).2.errors =
        (match init with
         | Except.error _ => 2
         | Except.ok _ =>
           ((crossTasks keywords locations).filter (taskFailed fetch)).length)) ∧
    (∀ (scrape : String → String → ScraperStats → List JobListing × ScraperStats)
       (keywords locations : List String),
      (jsearch_run scrape keywords locations).2.end_time = some ()) ∧
    (∀ (getPageFor : String → String → ℕ → Except String ApiResponse)
       (max_jobs fuel : ℕ) (keywords locations : List String),
      (jsearch_run (fun k l => jsearch_scrape_jobs (getPageFor k l) max_jobs fuel)
        keywords locations).1 =
        (crossTasks keywords locations).flatMap
          (fun t => (jsearch_scrape_jobs (getPageFor t.1 t.2) max_jobs fuel
            (initStats "jsearch")).1)) := by
  refine ⟨?_, ?_, ?_⟩
  · intro platform init fetch keywords locations
    cases init with
    | error e => exact ⟨rfl, rfl, rfl⟩
    | ok u =>
      refine ⟨rfl, ?_, ?_⟩
      · show (runTasks fetch (crossTasks keywords locations) ([], initStats platform)).1 = _
        rw [runTasks_fst, List.nil_append]
      · show (runTasks fetch (crossTasks keywords locations)
          ([], initStats platform)).2.errors = _
        rw [runTasks_errors]
        simp [initStats]
  · intro scrape keywords locations
    rfl
  · intro getPageFor max_jobs fuel keywords locations
    show (jsearchRunTasks _ (crossTasks keywords locations) ([], initStats "jsearch")).1 = _
    rw [jsearchRunTasks_fst]
    · rw [List.nil_append]
    · intro k l s s'
      exact scrape_loop_fst_stats_independent (getPageFor k l) max_jobs fuel 1 [] s s'

end JobScraper
